import Mathlib

/-!
Verification of the Visual Similarity Search spec against
src/image_similarity_streamlit_app.py.

The repository code is a thin Streamlit layer over the managed Cortex
Search Service: the app builds result dicts from service rows
(query_cortex_search), loads the corpus table (get_available_images) and
runs the upload-and-search flow of tab 2.  The engine components of the
spec (VectorIndex with its search and upsert, the ranking order, the
dimensionality guard) live inside the managed service and are not part of
the repository; where a claim is decided by those, they are modelled from
the spec and marked as such in their doc comments.
-/

namespace ImageSim

/-- Raw image bytes, as a list of byte values. -/
abbrev Bytes := List Nat

/-- A result row returned by the search service.  The app requests the
columns source_id, original_url and stage_file_path; each may be absent
from a row, mirroring the result.get calls with defaults in the app. -/
structure SearchRow where
  source_id : Option String
  original_url : Option String
  stage_file_path : Option String
deriving DecidableEq, Repr

/-- The dict literal built for each result inside query_cortex_search
(lines 59 to 63 of the source), as an association list.  The keys are
exactly SOURCE_ID, ORIGINAL_URL and STAGE_FILE_PATH, with defaults
N/A, empty string and N/A when the service omits the column. -/
def resultDict (r : SearchRow) : List (String × String) :=
  [("SOURCE_ID", r.source_id.getD "N/A"),
   ("ORIGINAL_URL", r.original_url.getD ""),
   ("STAGE_FILE_PATH", r.stage_file_path.getD "N/A")]

/-- query_cortex_search (lines 31 to 73 of the source): call the managed
service with the query vector and limit top_k; on success convert every
returned row with resultDict, preserving the order of the response; on
any exception render the error to the UI and return the empty list.  The
service call and its outcome are abstracted as the first argument; the
query_text argument is only interpolated into error messages and never
influences the returned value. -/
def query_cortex_search (service : List ℚ → Nat → Except String (List SearchRow))
    (query_text : String) (query_vector : List ℚ) (top_k : Nat) :
    List (List (String × String)) :=
  match service query_vector top_k with
  | Except.ok rows => rows.map resultDict
  | Except.error _ => []

/-- Display metadata carried by an index entry (spec section 3). -/
structure EntryMeta where
  source_url : Option String
  storage_path : Option String
deriving DecidableEq, Repr

/-- Modelled from the spec: an IndexEntry (record_id, vector, metadata) of
the VectorIndex.  In the deployed app the index lives inside the managed
Cortex Search Service and is not part of the repository. -/
structure IndexEntry where
  record_id : Nat
  vector : List ℚ
  metadata : EntryMeta
deriving DecidableEq, Repr

/-- Modelled from the spec: a QueryResult (record_id, distance, metadata). -/
structure QueryResult where
  record_id : Nat
  distance : ℚ
  metadata : EntryMeta
deriving DecidableEq, Repr

/-- Modelled from the spec: the VectorIndex, holding its configured
dimension and its entries. -/
structure VectorIndex where
  dim : Nat
  entries : List IndexEntry
deriving DecidableEq, Repr

/-- Error kinds of the engine (spec section 7) that the modelled index
operations can raise. -/
inductive EngineError where
  | DimensionMismatch
deriving DecidableEq, Repr

/-- The ranking order of the spec: ascending by distance, ties broken by
record_id ascending. -/
def qrLe (a b : QueryResult) : Bool :=
  decide (a.distance < b.distance ∨ (a.distance = b.distance ∧ a.record_id ≤ b.record_id))

/-- The query result produced for one index entry under the distance
metric dist fixed at index creation. -/
def scoreEntry (dist : List ℚ → List ℚ → ℚ) (q : List ℚ) (e : IndexEntry) :
    QueryResult :=
  QueryResult.mk e.record_id (dist q e.vector) e.metadata

/-- Modelled from the spec: VectorIndex.search — brute-force scan of the
entries, ranked ascending by distance with the record_id tie-break, the
first k results returned.  The distance metric dist is the one fixed at
index creation. -/
def VectorIndex.search (idx : VectorIndex) (dist : List ℚ → List ℚ → ℚ)
    (q : List ℚ) (k : Nat) : List QueryResult :=
  (((idx.entries.map (scoreEntry dist q)).mergeSort qrLe)).take k

/-- Modelled from the spec: VectorIndex.upsert — a vector whose length
differs from the configured dimension is rejected with DimensionMismatch;
otherwise any prior entry for record_id is replaced. -/
def VectorIndex.upsert (idx : VectorIndex) (rid : Nat) (v : List ℚ)
    (md : EntryMeta) : Except EngineError VectorIndex :=
  if v.length ≠ idx.dim then Except.error EngineError.DimensionMismatch
  else Except.ok (VectorIndex.mk idx.dim
    (idx.entries.filter (fun e => e.record_id != rid) ++ [IndexEntry.mk rid v md]))

/-- How the service presents a ranked result as a row of the requested
columns (the record id as source_id, the metadata as the URL columns). -/
def rowOfResult (r : QueryResult) : SearchRow :=
  SearchRow.mk (some (toString r.record_id)) r.metadata.source_url r.metadata.storage_path

/-- The managed search service realised by the spec-modelled VectorIndex:
always answers with the ranked rows, never an exception. -/
def serviceOf (idx : VectorIndex) (dist : List ℚ → List ℚ → ℚ) :
    List ℚ → Nat → Except String (List SearchRow) :=
  fun q k => Except.ok ((idx.search dist q k).map rowOfResult)

/-- A PIL image: its mode string and an abstract pixel payload. -/
structure PILImage where
  mode : String
  payload : Nat
deriving DecidableEq, Repr

/-- The external imaging and embedding capabilities used by the upload
tab: Image.open, the pixel transform performed by convert RGB, JPEG
encoding (image.save with format JPEG), and AI_EMBED with the
voyage-multimodal-3 model. -/
structure UploadEnv where
  pilOpen : Bytes → PILImage
  convertPayload : Nat → Nat
  jpegEncode : PILImage → Bytes
  embed : Bytes → List ℚ

/-- The state the upload handler mutates: the staged temp files and the
number of AI_EMBED executions so far. -/
structure AppState where
  stage : List (String × Bytes)
  embedCalls : Nat
deriving DecidableEq, Repr

/-- session.file.put with overwrite true: replace any staged file of the
same name. -/
def stagePut (st : AppState) (name : String) (b : Bytes) : AppState :=
  AppState.mk ((name, b) :: st.stage.filter (fun p => p.1 != name)) st.embedCalls

/-- TO_FILE over the stage: read a staged file by name. -/
def stageRead (st : AppState) (name : String) : Option Bytes :=
  (st.stage.find? (fun p => p.1 == name)).map Prod.snd

/-- The tab 2 upload-search handler (lines 264 to 309 of the source): open
the uploaded bytes, convert to RGB unless the mode already is RGB,
re-encode as JPEG, put the JPEG into the stage, execute AI_EMBED once on
the staged file, then search with the resulting vector.  Returns the new
state, the vector handed to the search, and the displayed results. -/
def uploadSearchHandler (env : UploadEnv)
    (service : List ℚ → Nat → Except String (List SearchRow))
    (st : AppState) (raw : Bytes) (fileName tmpName : String) (top_k : Nat) :
    AppState × List ℚ × List (List (String × String)) :=
  let image := env.pilOpen raw
  let image := if image.mode ≠ "RGB"
    then PILImage.mk "RGB" (env.convertPayload image.payload) else image
  let jpegBytes := env.jpegEncode image
  let st1 := stagePut st tmpName jpegBytes
  let staged := (stageRead st1 tmpName).getD []
  let vec := env.embed staged
  let st2 := AppState.mk st1.stage (st1.embedCalls + 1)
  (st2, vec, query_cortex_search service fileName vec top_k)

/-- A row of the table IMAGES_TABLE_DOWNLOADED_VECT. -/
structure ImgRow where
  SOURCE_ID : Nat
  ORIGINAL_URL : String
  STAGE_FILE_PATH : String
  IMAGE_VECTOR : List ℚ
deriving DecidableEq, Repr

/-- The SQL text inside get_available_images selects all four columns of
the table with ORDER BY SOURCE_ID: executing it against a table state
returns the rows sorted ascending by SOURCE_ID. -/
def imagesQuery (table : List ImgRow) : List ImgRow :=
  table.mergeSort (fun a b => a.SOURCE_ID ≤ b.SOURCE_ID)

/-- get_available_images (lines 76 to 93 of the source): run the corpus
query; on success return its rows; on any exception render the error to
the UI and return the empty list.  The database call outcome is
abstracted as the argument. -/
def get_available_images (db : Except String (List ImgRow)) : List ImgRow :=
  match db with
  | Except.ok rows => rows
  | Except.error _ => []

/-- Squared Euclidean distance over aligned coordinates: a concrete,
computable distance metric used to instantiate witnesses. -/
def sqDist (a b : List ℚ) : ℚ :=
  ((a.zip b).map (fun p => (p.1 - p.2) * (p.1 - p.2))).sum

/-- The ranking order qrLe is transitive. -/
theorem qrLe_trans (a b c : QueryResult) (hab : qrLe a b = true)
    (hbc : qrLe b c = true) : qrLe a c = true := by
  simp only [qrLe, decide_eq_true_eq] at hab hbc ⊢
  rcases hab with h1 | ⟨h1, h1le⟩ <;> rcases hbc with h2 | ⟨h2, h2le⟩
  · exact Or.inl (lt_trans h1 h2)
  · exact Or.inl (lt_of_lt_of_le h1 (le_of_eq h2))
  · exact Or.inl (lt_of_le_of_lt (le_of_eq h1) h2)
  · exact Or.inr ⟨h1.trans h2, le_trans h1le h2le⟩

/-- The ranking order qrLe is total. -/
theorem qrLe_total (a b : QueryResult) : (qrLe a b || qrLe b a) = true := by
  simp only [qrLe, Bool.or_eq_true, decide_eq_true_eq]
  rcases lt_trichotomy a.distance b.distance with h | h | h
  · exact Or.inl (Or.inl h)
  · rcases le_total a.record_id b.record_id with h2 | h2
    · exact Or.inl (Or.inr ⟨h, h2⟩)
    · exact Or.inr (Or.inr ⟨h.symm, h2⟩)
  · exact Or.inr (Or.inl h)

/-- The ranked list returned by the modelled search is sorted under qrLe. -/
theorem search_sorted (idx : VectorIndex) (dist : List ℚ → List ℚ → ℚ)
    (q : List ℚ) (k : Nat) :
    (idx.search dist q k).Pairwise (fun a b => qrLe a b = true) := by
  have hs : ((idx.entries.map (scoreEntry dist q)).mergeSort qrLe).Pairwise
      (fun a b => qrLe a b = true) :=
    List.sorted_mergeSort qrLe_trans qrLe_total _
  exact List.Pairwise.sublist (List.take_sublist _ _) hs

/-- Reading back the staged file just written returns exactly the bytes
that were put. -/
theorem stageRead_stagePut (st : AppState) (n : String) (b : Bytes) :
    stageRead (stagePut st n b) n = some b := by
  simp [stageRead, stagePut]

/-- Two sorted permutations of a list of query results with pairwise
distinct record ids are equal: the tie-break by record_id makes the
ranking a linear order on such lists. -/
theorem sorted_perm_eq_of_distinct (l₁ : List QueryResult) :
    ∀ (l₂ : List QueryResult), l₁.Perm l₂ →
      l₁.Pairwise (fun a b => qrLe a b = true) →
      l₂.Pairwise (fun a b => qrLe a b = true) →
      l₁.Pairwise (fun a b => a.record_id ≠ b.record_id) →
      l₁ = l₂ := by
  induction l₁ with
  | nil =>
    intro l₂ hp _ _ _
    exact hp.nil_eq
  | cons a t₁ ih =>
    intro l₂ hp hs₁ hs₂ hd
    cases l₂ with
    | nil => exact absurd hp.eq_nil (by simp)
    | cons b t₂ =>
      have hab : a = b := by
        by_contra hne
        have ha2 : a ∈ b :: t₂ := hp.mem_iff.1 (List.mem_cons_self a t₁)
        have hb1 : b ∈ a :: t₁ := hp.mem_iff.2 (List.mem_cons_self b t₂)
        have ha : a ∈ t₂ := by
          rcases List.mem_cons.1 ha2 with h | h
          · exact absurd h hne
          · exact h
        have hb : b ∈ t₁ := by
          rcases List.mem_cons.1 hb1 with h | h
          · exact absurd h.symm hne
          · exact h
        have h1 : qrLe a b = true := (List.pairwise_cons.1 hs₁).1 b hb
        have h2 : qrLe b a = true := (List.pairwise_cons.1 hs₂).1 a ha
        have hid : a.record_id ≠ b.record_id := (List.pairwise_cons.1 hd).1 b hb
        simp only [qrLe, decide_eq_true_eq] at h1 h2
        rcases h1 with h1 | ⟨h1, h1le⟩ <;> rcases h2 with h2 | ⟨h2, h2le⟩
        · exact absurd (lt_trans h1 h2) (lt_irrefl _)
        · exact absurd (h2 ▸ h1) (lt_irrefl _)
        · exact absurd (h1 ▸ h2) (lt_irrefl _)
        · exact hid (le_antisymm h1le h2le)
      subst hab
      have ht : t₁.Perm t₂ := hp.cons_inv
      have htl := ih t₂ ht (List.pairwise_cons.1 hs₁).2 (List.pairwise_cons.1 hs₂).2
        (List.pairwise_cons.1 hd).2
      rw [htl]

/-- A concrete service response used in the counterexample for C1. -/
def c1Service : List ℚ → Nat → Except String (List SearchRow) :=
  fun _ _ => Except.ok [SearchRow.mk (some "7") (some "http://u") (some "p.jpg")]

/-- C1 fails as stated on the code: the dicts query_cortex_search returns
carry no distance value at all — at this concrete input the single result
has exactly the keys SOURCE_ID, ORIGINAL_URL and STAGE_FILE_PATH and
looking up a distance key yields nothing. -/
theorem c1_counterexample :
    query_cortex_search c1Service "t" [1] 5
      = [[("SOURCE_ID", "7"), ("ORIGINAL_URL", "http://u"),
          ("STAGE_FILE_PATH", "p.jpg")]]
    ∧ (query_cortex_search c1Service "t" [1] 5).map (fun d => d.lookup "distance")
      = [none]
    ∧ (query_cortex_search c1Service "t" [1] 5).map (fun d => d.lookup "DISTANCE")
      = [none] :=
  ⟨rfl, rfl, rfl⟩

/-- C1 (amended): the ranking that orders results ascending by distance
with ties broken by record_id ascending is the modelled search ranking of
the service; query_cortex_search preserves that order element by element
but drops the distance, so the dicts it returns carry no distance value. -/
theorem c1_order_preserved_no_distance (idx : VectorIndex)
    (dist : List ℚ → List ℚ → ℚ) (t : String) (q : List ℚ) (k : Nat) :
    (idx.search dist q k).Pairwise (fun a b : QueryResult =>
        a.distance < b.distance ∨ (a.distance = b.distance ∧ a.record_id ≤ b.record_id))
    ∧ query_cortex_search (serviceOf idx dist) t q k
        = (idx.search dist q k).map (fun r => resultDict (rowOfResult r))
    ∧ ∀ d ∈ query_cortex_search (serviceOf idx dist) t q k,
        d.lookup "distance" = none ∧ d.lookup "DISTANCE" = none := by
  have hmap : query_cortex_search (serviceOf idx dist) t q k
      = (idx.search dist q k).map (fun r => resultDict (rowOfResult r)) := by
    simp [query_cortex_search, serviceOf]
  refine ⟨?_, hmap, ?_⟩
  · exact (search_sorted idx dist q k).imp (by
      intro a b h
      simpa [qrLe] using h)
  · intro d hd
    rw [hmap] at hd
    simp only [List.mem_map] at hd
    obtain ⟨r, _, rfl⟩ := hd
    exact ⟨rfl, rfl⟩

/-- Witness for the amended C1 at a concrete index and query. -/
theorem c1_order_preserved_no_distance_witness :
    List.lookup "distance"
        [("SOURCE_ID", "1"), ("ORIGINAL_URL", "u"), ("STAGE_FILE_PATH", "p")] = none
    ∧ List.lookup "DISTANCE"
        [("SOURCE_ID", "1"), ("ORIGINAL_URL", "u"), ("STAGE_FILE_PATH", "p")] = none :=
  (c1_order_preserved_no_distance
      (VectorIndex.mk 2 [IndexEntry.mk 1 [1, 0] (EntryMeta.mk (some "u") (some "p"))])
      sqDist "t" [1, 0] 1).2.2
    [("SOURCE_ID", "1"), ("ORIGINAL_URL", "u"), ("STAGE_FILE_PATH", "p")]
    (by
      simp only [query_cortex_search, serviceOf, VectorIndex.search, scoreEntry,
        rowOfResult, resultDict, List.map_cons, List.map_nil, List.mergeSort_singleton,
        List.take_succ_cons, List.take_nil, List.mem_singleton]
      rfl)

/-- A service response with one row, used where a concrete successful
backend call is needed. -/
def okService : List ℚ → Nat → Except String (List SearchRow) :=
  fun _ _ => Except.ok [SearchRow.mk (some "1") (some "u") (some "p")]

/-- C3 fails as stated on the code: query_cortex_search performs no input
validation at all.  With k = 0 and an empty query vector the call still
reaches the service and its rows are returned, and when the service
raises (for instance a validation error) the caller receives the empty
list, not an error. -/
theorem c3_counterexample :
    query_cortex_search okService "t" [] 0
      = [[("SOURCE_ID", "1"), ("ORIGINAL_URL", "u"), ("STAGE_FILE_PATH", "p")]]
    ∧ query_cortex_search (fun _ _ => Except.error "invalid k") "t" [] 0 = [] :=
  ⟨rfl, rfl⟩

/-- C3 (amended): query_cortex_search performs no validation of the query
vector dimensionality and does not require k ≥ 1 — it delegates every
call unchanged to the service — and every failure, validation failures
included, is swallowed: the caller receives the empty list, never an
error value and never partial results. -/
theorem c3_no_validation_empty_on_error
    (service : List ℚ → Nat → Except String (List SearchRow))
    (t : String) (q : List ℚ) (k : Nat) :
    (∀ e, service q k = Except.error e → query_cortex_search service t q k = [])
    ∧ (∀ rows, service q k = Except.ok rows →
        query_cortex_search service t q k = rows.map resultDict) := by
  constructor
  · intro e h
    simp [query_cortex_search, h]
  · intro rows h
    simp [query_cortex_search, h]

/-- Witness for the amended C3 at a concrete failing service. -/
theorem c3_no_validation_empty_on_error_witness :
    query_cortex_search (fun _ _ => Except.error "boom") "t" [] 0 = [] :=
  (c3_no_validation_empty_on_error (fun _ _ => Except.error "boom") "t" [] 0).1
    "boom" rfl

/-- C5: searching an empty index returns the empty sequence — the modelled
search is a total function, so no error is raised or signalled — and the
app layer passes that empty sequence through unchanged. -/
theorem c5_empty_index_search (d : Nat) (dist : List ℚ → List ℚ → ℚ)
    (t : String) (q : List ℚ) (k : Nat) :
    (VectorIndex.mk d []).search dist q k = []
    ∧ query_cortex_search (serviceOf (VectorIndex.mk d []) dist) t q k = [] := by
  have h : (VectorIndex.mk d []).search dist q k = [] := by
    simp [VectorIndex.search]
  refine ⟨h, ?_⟩
  simp [query_cortex_search, serviceOf, h]

/-- C6 (modelled from the spec, the index being the managed service): an
upsert whose vector length differs from the configured dimension fails
with DimensionMismatch, and no successor index state is produced — the
call leaves the index unchanged. -/
theorem c6_dimension_guard (idx : VectorIndex) (rid : Nat) (v : List ℚ)
    (md : EntryMeta) (h : v.length ≠ idx.dim) :
    idx.upsert rid v md = Except.error EngineError.DimensionMismatch
    ∧ ∀ idx2 : VectorIndex, idx.upsert rid v md ≠ Except.ok idx2 := by
  have he : idx.upsert rid v md = Except.error EngineError.DimensionMismatch := by
    simp [VectorIndex.upsert, h]
  refine ⟨he, ?_⟩
  intro idx2 hc
  rw [he] at hc
  exact Except.noConfusion hc

/-- Witness for C6 at a concrete index of dimension 2 and a vector of
length 1. -/
theorem c6_dimension_guard_witness :
    (VectorIndex.mk 2 []).upsert 1 [1] (EntryMeta.mk none none)
      = Except.error EngineError.DimensionMismatch :=
  (c6_dimension_guard (VectorIndex.mk 2 []) 1 [1] (EntryMeta.mk none none)
    (by decide)).1

/-- C8: every dict returned by query_cortex_search has exactly the keys
SOURCE_ID, ORIGINAL_URL and STAGE_FILE_PATH in that order, no distance or
score key is ever present, and the defaults taken when the service omits
a column are N/A, the empty string and N/A. -/
theorem c8_result_dict_shape
    (service : List ℚ → Nat → Except String (List SearchRow))
    (t : String) (q : List ℚ) (k : Nat) :
    (∀ d ∈ query_cortex_search service t q k,
        d.map Prod.fst = ["SOURCE_ID", "ORIGINAL_URL", "STAGE_FILE_PATH"]
        ∧ d.lookup "distance" = none ∧ d.lookup "DISTANCE" = none
        ∧ d.lookup "score" = none ∧ d.lookup "SCORE" = none)
    ∧ resultDict (SearchRow.mk none none none)
        = [("SOURCE_ID", "N/A"), ("ORIGINAL_URL", ""), ("STAGE_FILE_PATH", "N/A")] := by
  refine ⟨?_, rfl⟩
  intro d hd
  cases hsv : service q k with
  | error e =>
    simp [query_cortex_search, hsv] at hd
  | ok rows =>
    simp only [query_cortex_search, hsv, List.mem_map] at hd
    obtain ⟨r, _, rfl⟩ := hd
    exact ⟨rfl, rfl, rfl, rfl, rfl⟩

/-- Witness for C8 at a concrete service response. -/
theorem c8_result_dict_shape_witness :
    List.map Prod.fst
        [("SOURCE_ID", "1"), ("ORIGINAL_URL", "u"), ("STAGE_FILE_PATH", "p")]
      = ["SOURCE_ID", "ORIGINAL_URL", "STAGE_FILE_PATH"]
    ∧ List.lookup "distance"
        [("SOURCE_ID", "1"), ("ORIGINAL_URL", "u"), ("STAGE_FILE_PATH", "p")] = none
    ∧ List.lookup "DISTANCE"
        [("SOURCE_ID", "1"), ("ORIGINAL_URL", "u"), ("STAGE_FILE_PATH", "p")] = none
    ∧ List.lookup "score"
        [("SOURCE_ID", "1"), ("ORIGINAL_URL", "u"), ("STAGE_FILE_PATH", "p")] = none
    ∧ List.lookup "SCORE"
        [("SOURCE_ID", "1"), ("ORIGINAL_URL", "u"), ("STAGE_FILE_PATH", "p")] = none :=
  (c8_result_dict_shape okService "x" [2] 3).1
    [("SOURCE_ID", "1"), ("ORIGINAL_URL", "u"), ("STAGE_FILE_PATH", "p")]
    (by decide)

/-- C9: for every uploaded image the handler converts the opened image to
RGB mode (a no-op if it already is RGB), re-encodes it as JPEG, and both
the staged bytes and the input to the embedder are exactly those
re-encoded JPEG bytes — never the original uploaded bytes.  This holds
for every upload, whatever the original format of the bytes. -/
theorem c9_rgb_jpeg_reencode (env : UploadEnv)
    (service : List ℚ → Nat → Except String (List SearchRow))
    (st : AppState) (raw : Bytes) (f t : String) (k : Nat) :
    ((if (env.pilOpen raw).mode ≠ "RGB"
        then PILImage.mk "RGB" (env.convertPayload (env.pilOpen raw).payload)
        else env.pilOpen raw).mode = "RGB")
    ∧ (uploadSearchHandler env service st raw f t k).2.1
        = env.embed (env.jpegEncode (if (env.pilOpen raw).mode ≠ "RGB"
            then PILImage.mk "RGB" (env.convertPayload (env.pilOpen raw).payload)
            else env.pilOpen raw))
    ∧ stageRead (uploadSearchHandler env service st raw f t k).1 t
        = some (env.jpegEncode (if (env.pilOpen raw).mode ≠ "RGB"
            then PILImage.mk "RGB" (env.convertPayload (env.pilOpen raw).payload)
            else env.pilOpen raw)) := by
  refine ⟨?_, ?_, ?_⟩
  · by_cases h : (env.pilOpen raw).mode = "RGB" <;> simp [h]
  · simp [uploadSearchHandler, stageRead_stagePut]
  · simp [uploadSearchHandler, stageRead, stagePut]

/-- C10: get_available_images returns the empty list whenever the corpus
query raises, which is exactly what it returns when the corpus is empty —
the two outcomes are indistinguishable to the caller — and on success it
returns the table rows sorted ascending by SOURCE_ID (the ORDER BY of the
query), a permutation of the whole table. -/
theorem c10_empty_on_error_sorted_on_ok (e : String) (table : List ImgRow) :
    get_available_images (Except.error e) = []
    ∧ get_available_images (Except.error e) = get_available_images (Except.ok [])
    ∧ (get_available_images (Except.ok (imagesQuery table))).Pairwise
        (fun a b => a.SOURCE_ID ≤ b.SOURCE_ID)
    ∧ (get_available_images (Except.ok (imagesQuery table))).Perm table := by
  refine ⟨rfl, rfl, ?_, ?_⟩
  · have hs : (table.mergeSort
        (fun a b : ImgRow => decide (a.SOURCE_ID ≤ b.SOURCE_ID))).Pairwise
        (fun a b : ImgRow => decide (a.SOURCE_ID ≤ b.SOURCE_ID) = true) :=
      List.sorted_mergeSort
        (fun a b c h1 h2 => by
          simp only [decide_eq_true_eq] at h1 h2 ⊢
          exact le_trans h1 h2)
        (fun a b => by
          simp only [Bool.or_eq_true, decide_eq_true_eq]
          exact Nat.le_total a.SOURCE_ID b.SOURCE_ID)
        table
    exact hs.imp (by
      intro a b h
      simpa using h)
  · exact List.mergeSort_perm table _

/-- The imaging and embedding environment used in the counterexample for
C4: opening tags the image with a non RGB mode, JPEG encoding returns the
payload as a single byte, embedding returns the byte count as a rational. -/
def c4Env : UploadEnv :=
  UploadEnv.mk (fun b => PILImage.mk "P" b.length) (fun p => p + 1)
    (fun i => [i.payload]) (fun b => [(b.length : ℚ)])

/-- A service that always answers with no rows, used in the
counterexample for C4. -/
def emptyService : List ℚ → Nat → Except String (List SearchRow) :=
  fun _ _ => Except.ok []

/-- C4 fails as stated on the code: there is no content fingerprint cache
at all — ingesting the same bytes twice runs AI_EMBED twice.  At this
concrete input the embedder call count after two ingestions of identical
bytes is 2, not 1. -/
theorem c4_counterexample :
    ((uploadSearchHandler c4Env emptyService
        (uploadSearchHandler c4Env emptyService (AppState.mk [] 0)
          [1, 2, 3] "img.png" "tmpA" 5).1
        [1, 2, 3] "img.png" "tmpB" 5).1.embedCalls = 2)
    ∧ ¬ ((uploadSearchHandler c4Env emptyService
        (uploadSearchHandler c4Env emptyService (AppState.mk [] 0)
          [1, 2, 3] "img.png" "tmpA" 5).1
        [1, 2, 3] "img.png" "tmpB" 5).1.embedCalls = 1) := by
  constructor
  · rfl
  · intro h
    simp [uploadSearchHandler, stagePut, stageRead] at h

/-- C4 (amended): every upload-search run invokes the embedder exactly
once — the call count grows by one per ingestion, so two ingestions of
identical bytes leave it at 2 — and the vectors computed by any two runs
over the same bytes are identical, both being the embedding of the same
re-encoded JPEG bytes; no record is added to any index by the handler. -/
theorem c4_embed_once_per_ingestion (env : UploadEnv)
    (service : List ℚ → Nat → Except String (List SearchRow))
    (st st2 : AppState) (raw : Bytes) (f1 t1 f2 t2 : String) (k1 k2 : Nat) :
    (uploadSearchHandler env service st raw f1 t1 k1).1.embedCalls
      = st.embedCalls + 1
    ∧ (uploadSearchHandler env service st raw f1 t1 k1).2.1
      = (uploadSearchHandler env service st2 raw f2 t2 k2).2.1 := by
  constructor
  · simp [uploadSearchHandler, stagePut]
  · simp [uploadSearchHandler, stageRead_stagePut]

/-- C2 (modelled from the spec, the index search being the managed
service): search returns min k n results — exactly k whenever k ≤ n —
and the distance of every returned result is at most the distance of any
corpus entry whose result was not returned. -/
theorem c2_topk_correct (idx : VectorIndex) (dist : List ℚ → List ℚ → ℚ)
    (q : List ℚ) (k : Nat) :
    (idx.search dist q k).length = min k idx.entries.length
    ∧ (k ≤ idx.entries.length → (idx.search dist q k).length = k)
    ∧ ∀ e ∈ idx.entries, scoreEntry dist q e ∉ idx.search dist q k →
        ∀ r ∈ idx.search dist q k, r.distance ≤ dist q e.vector := by
  have hlen : (idx.search dist q k).length = min k idx.entries.length := by
    simp [VectorIndex.search]
  refine ⟨hlen, ?_, ?_⟩
  · intro hk
    rw [hlen]
    exact Nat.min_eq_left hk
  · intro e he hnot r hr
    have hsearch : idx.search dist q k
        = ((idx.entries.map (scoreEntry dist q)).mergeSort qrLe).take k := rfl
    rw [hsearch] at hnot hr
    have hsorted : ((idx.entries.map (scoreEntry dist q)).mergeSort qrLe).Pairwise
        (fun a b => qrLe a b = true) :=
      List.sorted_mergeSort qrLe_trans qrLe_total _
    have hmem : scoreEntry dist q e
        ∈ (idx.entries.map (scoreEntry dist q)).mergeSort qrLe :=
      List.mem_mergeSort.2 (List.mem_map_of_mem _ he)
    have hsplit : (idx.entries.map (scoreEntry dist q)).mergeSort qrLe
        = ((idx.entries.map (scoreEntry dist q)).mergeSort qrLe).take k
          ++ ((idx.entries.map (scoreEntry dist q)).mergeSort qrLe).drop k :=
      (List.take_append_drop k _).symm
    have hdrop : scoreEntry dist q e
        ∈ ((idx.entries.map (scoreEntry dist q)).mergeSort qrLe).drop k := by
      rcases List.mem_append.1 (hsplit ▸ hmem) with h | h
      · exact absurd h hnot
      · exact h
    have hpw := List.pairwise_append.1 (hsplit ▸ hsorted)
    have hle : qrLe r (scoreEntry dist q e) = true := hpw.2.2 r hr _ hdrop
    simp only [qrLe, decide_eq_true_eq, scoreEntry] at hle
    rcases hle with h | ⟨h, _⟩
    · exact le_of_lt h
    · exact le_of_eq h

/-- The three-image corpus of the spec scenario: vectors (1, 0), (0, 1)
and (9/10, 1/10) under record ids 1, 2, 3. -/
def specCorpus : VectorIndex :=
  VectorIndex.mk 2
    [IndexEntry.mk 1 [1, 0] (EntryMeta.mk none none),
     IndexEntry.mk 2 [0, 1] (EntryMeta.mk none none),
     IndexEntry.mk 3 [9/10, 1/10] (EntryMeta.mk none none)]

/-- Witness for C2 on the scenario corpus: k = 2 against 3 entries yields
exactly 2 results. -/
theorem c2_topk_correct_witness :
    (specCorpus.search sqDist [1, 0] 2).length = 2 :=
  (c2_topk_correct specCorpus sqDist [1, 0] 2).2.1 (by decide)

/-- C7: ranking is deterministic — a repeated call with the same corpus
and query returns the same sequence, the modelled search being a
function of its arguments — and the ranking does not even depend on the
enumeration order of the corpus: two corpora that are permutations of
one another with pairwise distinct record ids rank identically, as does
the app layer over them. -/
theorem c7_deterministic_ranking (idx1 idx2 : VectorIndex)
    (dist : List ℚ → List ℚ → ℚ) (t : String) (q : List ℚ) (k : Nat)
    (hperm : idx1.entries.Perm idx2.entries)
    (hids : idx1.entries.Pairwise (fun a b => a.record_id ≠ b.record_id)) :
    idx1.search dist q k = idx1.search dist q k
    ∧ idx1.search dist q k = idx2.search dist q k
    ∧ query_cortex_search (serviceOf idx1 dist) t q k
        = query_cortex_search (serviceOf idx2 dist) t q k := by
  have hL : (idx1.entries.map (scoreEntry dist q)).Perm
      (idx2.entries.map (scoreEntry dist q)) := hperm.map _
  have hmap1 : (idx1.entries.map (scoreEntry dist q)).Pairwise
      (fun a b => a.record_id ≠ b.record_id) :=
    List.pairwise_map.2 hids
  have hdistinct : ((idx1.entries.map (scoreEntry dist q)).mergeSort qrLe).Pairwise
      (fun a b : QueryResult => a.record_id ≠ b.record_id) :=
    ((List.mergeSort_perm (idx1.entries.map (scoreEntry dist q)) qrLe).pairwise_iff
      (fun h => Ne.symm h)).2 hmap1
  have hS : (idx1.entries.map (scoreEntry dist q)).mergeSort qrLe
      = (idx2.entries.map (scoreEntry dist q)).mergeSort qrLe :=
    sorted_perm_eq_of_distinct _ _
      ((List.mergeSort_perm _ qrLe).trans (hL.trans (List.mergeSort_perm _ qrLe).symm))
      (List.sorted_mergeSort qrLe_trans qrLe_total _)
      (List.sorted_mergeSort qrLe_trans qrLe_total _)
      hdistinct
  have hsearch : idx1.search dist q k = idx2.search dist q k := by
    unfold VectorIndex.search
    rw [hS]
  refine ⟨rfl, hsearch, ?_⟩
  simp [query_cortex_search, serviceOf, hsearch]

/-- A two-image corpus. -/
def c7IdxA : VectorIndex :=
  VectorIndex.mk 2
    [IndexEntry.mk 1 [1, 0] (EntryMeta.mk none none),
     IndexEntry.mk 2 [0, 1] (EntryMeta.mk none none)]

/-- The same two-image corpus enumerated in the opposite order. -/
def c7IdxB : VectorIndex :=
  VectorIndex.mk 2
    [IndexEntry.mk 2 [0, 1] (EntryMeta.mk none none),
     IndexEntry.mk 1 [1, 0] (EntryMeta.mk none none)]

/-- Witness for C7 on a concrete corpus and its reversal. -/
theorem c7_deterministic_ranking_witness :
    c7IdxA.search sqDist [1, 0] 2 = c7IdxB.search sqDist [1, 0] 2 :=
  (c7_deterministic_ranking c7IdxA c7IdxB sqDist "t" [1, 0] 2
    (by decide) (by decide)).2.1

end ImageSim
